import Mathlib

/-!
Shallow embedding of `src/lib/libfrr.c` (FRR's option-registration and
daemon-bootstrap core) and proofs about its specification claims.

Modelling conventions:
- C strings become Lean `String`s; `NULL` pointers become `Option`.
- The fixed global buffers (`comb_optstr[256]`, `comb_lo[64]`,
  `comb_helpstr[4096]`) become a `CombState` record whose fields are
  unbounded; the numeric capacities are recorded separately as constants,
  because the C code itself performs no bounds check when appending.
- The function-local `static` flags of `frr_opt` (`vty_port_set`,
  `vty_addr_set`) and the file-scope `static int errors` become fields of an
  explicit `ParseState` threaded through the dispatcher.
- `getopt_long` is platform code (not part of this repository); the scan it
  produces is modelled as a list of events, each an option code (the `int`
  getopt_long returns) together with the `optarg` string.  The end-of-options
  `-1` return is the end of the list.
- Process exits (`exit`, `frr_help_exit`) become outcome constructors
  carrying the exit status and the stream (stdout/stderr) the text went to.
- `fprintf(stderr, ...)` diagnostics are accumulated in a `diags` list.
- `struct frr_daemon_info` is declared in `libfrr.h`, which is not part of
  the given sources; its fields are reconstructed from their uses in
  `libfrr.c` (progname, proghelp, copyright, flags, vty_addr, vty_port,
  vty_sock_path, privs->user, privs->group).  `vty_port` is modelled as the
  full `unsigned long` value assigned by `strtoul`.
-/

/-- Which standard stream output was written to. -/
inductive OutStream where
  | stdout : OutStream
  | stderr : OutStream
deriving Repr, DecidableEq

/-- Feature-flag bits of `frr_daemon_info.flags`: `FRR_NO_PRIVSEP` and
`FRR_NO_TCPVTY`, modelled as the two booleans the code tests with `&`. -/
structure FrrFlags where
  noPrivsep : Bool
  noTcpVty : Bool
deriving Repr, DecidableEq

/-- Model of `struct frr_daemon_info` as used by `libfrr.c` (header not in sources;
fields reconstructed from their uses).  `privs->user` / `privs->group` are
inlined as the two fields the code actually writes through `di->privs`. -/
structure FrrDaemonInfo where
  progname : String
  proghelp : String
  copyright : Option String
  flags : FrrFlags
  vty_addr : Option String
  vty_port : Nat
  vty_sock_path : Option String
  privsUser : Option String
  privsGroup : Option String
deriving Repr, DecidableEq

/-- One `struct option` entry (GNU getopt long option descriptor).
`has_arg` is 0 for `no_argument`, 1 for `required_argument`; the `flag`
member is `NULL` in every descriptor in this file and is omitted.  The
`{ NULL }` sentinel terminating each C array is the end of the Lean list. -/
structure LongOpt where
  name : String
  has_arg : Nat
  val : Int
deriving Repr, DecidableEq

/-- Model of `struct optspec`: one module's fragment of short options, help text and
long options. -/
structure Optspec where
  optstr : String
  helpstr : String
  longopts : List LongOpt
deriving Repr, DecidableEq

/-- The combined option table: the global buffers `comb_optstr`,
`comb_lo` (with `comb_next_lo` as its fill level) and `comb_helpstr`. -/
structure CombState where
  comb_optstr : String
  comb_lo : List LongOpt
  comb_helpstr : String
deriving Repr, DecidableEq

/-- Declared capacity of `static char comb_optstr[256]` (a C string of at
most 255 characters plus NUL). -/
def COMB_OPTSTR_SIZE : Nat := 256

/-- Declared capacity of `static struct option comb_lo[64]`. -/
def COMB_LO_SIZE : Nat := 64

/-- Declared capacity of `static char comb_helpstr[4096]`. -/
def COMB_HELPSTR_SIZE : Nat := 4096

/-- The zero-initialized state of the global buffers at program start. -/
def emptyComb : CombState := { comb_optstr := "", comb_lo := [], comb_helpstr := "" }

/-- Model of `opt_extend`: `strcat(comb_optstr, os->optstr); strcat(comb_helpstr,
os->helpstr); for (lo = os->longopts; lo->name; lo++) memcpy(comb_next_lo++,
lo, sizeof(*lo));` — unconditional appends, with no capacity check of any
kind. -/
def opt_extend (os : Optspec) (c : CombState) : CombState :=
  { comb_optstr := c.comb_optstr ++ os.optstr
    comb_lo := c.comb_lo ++ os.longopts
    comb_helpstr := c.comb_helpstr ++ os.helpstr }

/-- Constant from `#define OPTION_VTYSOCK 1000`. -/
def OPTION_VTYSOCK : Int := 1000

/-- Model of `lo_always`: help / version / vty_socket long options. -/
def lo_always : List LongOpt :=
  [ { name := "help", has_arg := 0, val := 104 },
    { name := "version", has_arg := 0, val := 118 },
    { name := "vty_socket", has_arg := 1, val := OPTION_VTYSOCK } ]

/-- Model of `os_always`: the mandatory fragment. -/
def os_always : Optspec :=
  { optstr := "hv"
    helpstr := "  -h, --help         Display this help and exit\n  -v, --version      Print program version\n      --vty_socket   Override vty socket path\n"
    longopts := lo_always }

/-- Model of `lo_vty`: vty_addr / vty_port long options (codes 'A' = 65, 'P' = 80). -/
def lo_vty : List LongOpt :=
  [ { name := "vty_addr", has_arg := 1, val := 65 },
    { name := "vty_port", has_arg := 1, val := 80 } ]

/-- Model of `os_vty`: the remote-listener fragment. -/
def os_vty : Optspec :=
  { optstr := "A:P:"
    helpstr := "  -A, --vty_addr     Set vty's bind address\n  -P, --vty_port     Set vty's port number\n"
    longopts := lo_vty }

/-- Model of `lo_user`: user / group long options (codes 'u' = 117, 'g' = 103). -/
def lo_user : List LongOpt :=
  [ { name := "user", has_arg := 1, val := 117 },
    { name := "group", has_arg := 1, val := 103 } ]

/-- Model of `os_user`: the privilege-separation fragment. -/
def os_user : Optspec :=
  { optstr := "u:g:"
    helpstr := "  -u, --user         User to run as\n  -g, --group        Group to run as\n"
    longopts := lo_user }

/-- The portion of a string after its last `/`, or the whole string when it
has none: `p = strrchr(s, '/'); p ? p + 1 : s`.  Used for the opencoded
`basename()` in `frr_preinit` and for the socket name in `frr_vty_serv`. -/
def afterLastSlash (s : String) : String :=
  String.mk (((s.data.reverse).takeWhile (fun c => c ≠ '/')).reverse)

/-- Model of `frr_preinit(daemon, argc, argv)`: records the daemon descriptor, derives
`progname` from `argv[0]`, then appends to the (never reset) combined table
the mandatory fragment, the privilege fragment unless `FRR_NO_PRIVSEP`, and
the vty fragment unless `FRR_NO_TCPVTY`.  The `umask(0027)` call is an OS
side effect outside the model. -/
def frr_preinit (daemon : FrrDaemonInfo) (argv0 : String) (c : CombState) :
    FrrDaemonInfo × CombState :=
  let di := { daemon with progname := afterLastSlash argv0 }
  let c1 := opt_extend os_always c
  let c2 := if di.flags.noPrivsep = false then opt_extend os_user c1 else c1
  let c3 := if di.flags.noTcpVty = false then opt_extend os_vty c2 else c2
  (di, c3)

/-- Model of `frr_opt_add(optstr, longopts, helpstr)`: wraps the arguments in an
optspec and calls `opt_extend`. -/
def frr_opt_add (optstr : String) (longopts : List LongOpt) (helpstr : String)
    (c : CombState) : CombState :=
  opt_extend { optstr := optstr, helpstr := helpstr, longopts := longopts } c

/-- Result of C `strtoul(nptr, &endptr, 0)`: the returned value and the
index `endptr - nptr` of the first unconsumed character. -/
structure StrtoulResult where
  value : Nat
  endpos : Nat
deriving Repr, DecidableEq

/-- Constant `ULONG_MAX` for the usual 64-bit `unsigned long`. -/
def ULONG_MAX : Nat := 2 ^ 64 - 1

/-- C `isspace` characters skipped by `strtoul`. -/
def isSpaceC (c : Char) : Bool :=
  c = ' ' || c = '\t' || c = '\n' || c = '\r' || c = Char.ofNat 11 || c = Char.ofNat 12

/-- Decimal digit test. -/
def isDecDigit (c : Char) : Bool := '0' ≤ c && c ≤ '9'

/-- Octal digit test. -/
def isOctDigit (c : Char) : Bool := '0' ≤ c && c ≤ '7'

/-- Hexadecimal digit test. -/
def isHexDigit (c : Char) : Bool :=
  isDecDigit c || ('a' ≤ c && c ≤ 'f') || ('A' ≤ c && c ≤ 'F')

/-- Numeric value of a (hex) digit character. -/
def digitVal (c : Char) : Nat :=
  if isDecDigit c then c.toNat - 48
  else if 'a' ≤ c && c ≤ 'f' then c.toNat - 87
  else c.toNat - 55

/-- Model of `strtoul(s, &err, 0)`: skip whitespace, optional sign, then a base
prefix (`0x`/`0X` hex when followed by a hex digit, a leading `0` octal,
else decimal), then the maximal digit run.  If no digits are consumed the
conversion fails and `endptr` is the original `nptr` (endpos 0).  On
overflow of `unsigned long` the value saturates at `ULONG_MAX`; a leading
minus negates the value in unsigned (mod 2^64) arithmetic. -/
def strtoul0 (s : String) : StrtoulResult :=
  let cs := s.data
  let i0 := (cs.takeWhile isSpaceC).length
  let rest0 := cs.drop i0
  let signed : Bool × Nat × List Char :=
    match rest0 with
    | '-' :: r => (true, i0 + 1, r)
    | '+' :: r => (false, i0 + 1, r)
    | r => (false, i0, r)
  let neg := signed.1
  let i1 := signed.2.1
  let rest1 := signed.2.2
  let based : Nat × Nat × List Char :=
    match rest1 with
    | '0' :: x :: r =>
        if (x = 'x' || x = 'X') && (match r with | c :: _ => isHexDigit c | [] => false)
        then (16, i1 + 2, r)
        else (8, i1, '0' :: x :: r)
    | ['0'] => (8, i1, ['0'])
    | r => (10, i1, r)
  let base := based.1
  let i2 := based.2.1
  let rest2 := based.2.2
  let isD := if base = 16 then isHexDigit else if base = 8 then isOctDigit else isDecDigit
  let digits := rest2.takeWhile isD
  if digits.isEmpty then { value := 0, endpos := 0 }
  else
    let mag := digits.foldl (fun a c => a * base + digitVal c) 0
    let v :=
      if mag > ULONG_MAX then ULONG_MAX
      else if neg then (2 ^ 64 - mag) % 2 ^ 64
      else mag
    { value := v, endpos := i2 + digits.length }

/-- Per-invocation parse state: the daemon descriptor mutated by handlers,
the file-scope `static int errors`, the function-local statics
`vty_port_set` / `vty_addr_set` of `frr_opt`, and the accumulated stderr
diagnostics. -/
structure ParseState where
  di : FrrDaemonInfo
  errors : Nat
  vty_port_set : Bool
  vty_addr_set : Bool
  diags : List String
deriving Repr, DecidableEq

/-- State of the statics at the start of a process invocation. -/
def initParse (di : FrrDaemonInfo) : ParseState :=
  { di := di, errors := 0, vty_port_set := false, vty_addr_set := false, diags := [] }

/-- What one `frr_opt` dispatch did: exited the process (carrying status and
output stream), handled the option (C `return 0`), or left it unhandled for
the caller (C `return 1`). -/
inductive FrrOptAction where
  | exitp : Nat → OutStream → FrrOptAction
  | handled : FrrOptAction
  | unhandled : FrrOptAction
deriving Repr, DecidableEq

/-- Model of `frr_opt(opt)`: the option dispatcher switch.  Codes are getopt return
values: 'h' = 104, 'v' = 118, 'A' = 65, 'P' = 80, OPTION_VTYSOCK = 1000,
'u' = 117, 'g' = 103.  `frr_help_exit(0)` and `print_version` both write to
stdout and exit 0. -/
def frr_opt (opt : Int) (optarg : String) (st : ParseState) :
    FrrOptAction × ParseState :=
  if opt = 104 then (FrrOptAction.exitp 0 OutStream.stdout, st)
  else if opt = 118 then (FrrOptAction.exitp 0 OutStream.stdout, st)
  else if opt = 65 then
    if st.di.flags.noTcpVty then (FrrOptAction.unhandled, st)
    else if st.vty_addr_set then
      (FrrOptAction.handled,
        { st with errors := st.errors + 1,
                  diags := st.diags ++ ["-A option specified more than once!"] })
    else
      (FrrOptAction.handled,
        { st with vty_addr_set := true,
                  di := { st.di with vty_addr := some optarg } })
  else if opt = 80 then
    if st.di.flags.noTcpVty then (FrrOptAction.unhandled, st)
    else if st.vty_port_set then
      (FrrOptAction.handled,
        { st with errors := st.errors + 1,
                  diags := st.diags ++ ["-P option specified more than once!"] })
    else
      let r := strtoul0 optarg
      let st1 := { st with vty_port_set := true,
                           di := { st.di with vty_port := r.value } }
      if r.endpos ≠ optarg.length ∨ optarg.length = 0 then
        (FrrOptAction.handled,
          { st1 with errors := st1.errors + 1,
                     diags := st1.diags ++
                       ["invalid port number \"" ++ optarg ++ "\" for -P option"] })
      else (FrrOptAction.handled, st1)
  else if opt = OPTION_VTYSOCK then
    if st.di.vty_sock_path.isSome then
      (FrrOptAction.handled,
        { st with errors := st.errors + 1,
                  diags := st.diags ++ ["--vty_socket option specified more than once!"] })
    else
      (FrrOptAction.handled, { st with di := { st.di with vty_sock_path := some optarg } })
  else if opt = 117 then
    if st.di.flags.noPrivsep then (FrrOptAction.unhandled, st)
    else (FrrOptAction.handled, { st with di := { st.di with privsUser := some optarg } })
  else if opt = 103 then
    if st.di.flags.noPrivsep then (FrrOptAction.unhandled, st)
    else (FrrOptAction.handled, { st with di := { st.di with privsGroup := some optarg } })
  else (FrrOptAction.unhandled, st)

/-- One option event produced by the scanning primitive (`getopt_long`):
the returned code and the `optarg` in effect (ignored by handlers of
no-argument options). -/
structure Event where
  code : Int
  arg : String
deriving Repr, DecidableEq

/-- What one call of `frr_getopt` produced: a process exit, or a return of
`opt` to the caller together with the state and the remaining events. -/
inductive GetoptRet where
  | exitp : Nat → OutStream → GetoptRet
  | ret : Int → ParseState → List Event → GetoptRet
deriving Repr, DecidableEq

/-- Model of `frr_getopt(argc, argv, longindex)`: loops `getopt_long` + `frr_opt`
until `frr_opt` returns nonzero (an unhandled option, or the final `-1`);
on `-1` with a nonzero error count it calls `frr_help_exit(1)` (stderr),
otherwise it returns the unhandled code to the caller.  The `longindex` out
parameter and the sentinel write `comb_next_lo->name = NULL` are not
observable here. -/
def frr_getopt : List Event → ParseState → GetoptRet
  | [], st =>
      if st.errors ≠ 0 then GetoptRet.exitp 1 OutStream.stderr
      else GetoptRet.ret (-1) st []
  | e :: rest, st =>
      match frr_opt e.code e.arg st with
      | (FrrOptAction.exitp s t, _) => GetoptRet.exitp s t
      | (FrrOptAction.handled, st1) => frr_getopt rest st1
      | (FrrOptAction.unhandled, st1) => GetoptRet.ret e.code st1 rest

/-- Outcome of driving `frr_getopt` over a whole invocation. -/
inductive ScanOutcome where
  | exitp : Nat → OutStream → ScanOutcome
  | ok : ParseState → ScanOutcome
deriving Repr, DecidableEq

/-- The complete option scan: repeated `frr_getopt` calls by a caller that
registers no extra handlers (options handed back to it are skipped and the
scan resumes), until the scan exits the process or reaches `-1` cleanly. -/
def runScan : List Event → ParseState → ScanOutcome
  | [], st =>
      if st.errors ≠ 0 then ScanOutcome.exitp 1 OutStream.stderr
      else ScanOutcome.ok st
  | e :: rest, st =>
      match frr_opt e.code e.arg st with
      | (FrrOptAction.exitp s t, _) => ScanOutcome.exitp s t
      | (_, st1) => runScan rest st1

/-- The state after dispatching every event in order (ignoring exits);
coincides with the scan state on event lists free of help/version. -/
def scanState : List Event → ParseState → ParseState
  | [], st => st
  | e :: rest, st => scanState rest (frr_opt e.code e.arg st).2

/-- The scan reached the end of the options with every event handled (no
exit, no option handed back to the caller), yielding the final state. -/
def processAll : List Event → ParseState → Option ParseState
  | [], st => some st
  | e :: rest, st =>
      match frr_opt e.code e.arg st with
      | (FrrOptAction.handled, st1) => processAll rest st1
      | _ => none

/-- Constant `MAXPATHLEN` (the usual 4096) bounding `char newpath[MAXPATHLEN]`. -/
def MAXPATHLEN : Nat := 4096

/-- Model of `snprintf(buf, size, "%s/%s", dir, nm)`: the formatted string truncated
to `size - 1` characters.  (snprintf is libc, modelled here.) -/
def snprintf_path (size : Nat) (dir nm : String) : String :=
  String.mk ((dir ++ "/" ++ nm).data.take (size - 1))

/-- Model of `frr_vty_serv(path)`: with a `--vty_socket` override set, joins the
override directory with the final segment of `path` (strrchr + snprintf)
and calls `vty_serv_sock(di->vty_addr, di->vty_port, newpath)`; otherwise
calls it on `path` unchanged.  Modelled as the argument triple passed to
`vty_serv_sock`. -/
def frr_vty_serv (di : FrrDaemonInfo) (path : String) :
    Option String × Nat × String :=
  match di.vty_sock_path with
  | some sp =>
      let name := afterLastSlash path
      (di.vty_addr, di.vty_port, snprintf_path MAXPATHLEN sp name)
  | none => (di.vty_addr, di.vty_port, path)

/-- A sample daemon descriptor with both features enabled and nothing set. -/
def di0 : FrrDaemonInfo :=
  { progname := "testd", proghelp := "Test daemon.", copyright := none
    flags := { noPrivsep := false, noTcpVty := false }
    vty_addr := none, vty_port := 0, vty_sock_path := none
    privsUser := none, privsGroup := none }

/-- A sample descriptor with both features disabled. -/
def diNone : FrrDaemonInfo :=
  { di0 with flags := { noPrivsep := true, noTcpVty := true } }

/-- Whether the `-P` handler, run on a fresh invocation state, accepts the
value string without recording an error. -/
def vtyPortAccepted (s : String) : Bool :=
  (frr_opt 80 s (initParse di0)).2.errors == 0

/-! ### Helper lemmas about single dispatch steps -/

theorem string_length_eq_zero_iff (s : String) : s.length = 0 ↔ s = "" := by
  cases s with
  | mk d => simp [String.length, String.ext_iff]

theorem frr_opt_exitp_characterization {o : Int} {a : String} {st : ParseState}
    {s : Nat} {t : OutStream} {st' : ParseState}
    (h : frr_opt o a st = (FrrOptAction.exitp s t, st')) :
    s = 0 ∧ t = OutStream.stdout ∧ (o = 104 ∨ o = 118) ∧ st' = st := by
  unfold frr_opt at h
  split_ifs at h <;> (try simp_all) <;> (try split at h) <;> simp_all

theorem frr_opt_errors_le (o : Int) (a : String) (st : ParseState) :
    st.errors ≤ (frr_opt o a st).2.errors := by
  unfold frr_opt
  split_ifs <;> (try simp) <;> (try split) <;> simp

theorem frr_opt_flags_eq (o : Int) (a : String) (st : ParseState) :
    (frr_opt o a st).2.di.flags = st.di.flags := by
  unfold frr_opt
  split_ifs <;> (try simp) <;> (try split) <;> simp

theorem frr_opt_addr_mono (o : Int) (a : String) (st : ParseState)
    (h : st.vty_addr_set = true) : (frr_opt o a st).2.vty_addr_set = true := by
  unfold frr_opt
  split_ifs <;> (try simp [h]) <;> (try split) <;> simp [h]

theorem frr_opt_port_mono (o : Int) (a : String) (st : ParseState)
    (h : st.vty_port_set = true) : (frr_opt o a st).2.vty_port_set = true := by
  unfold frr_opt
  split_ifs <;> (try simp [h]) <;> (try split) <;> simp [h]

theorem frr_opt_sock_mono (o : Int) (a : String) (st : ParseState)
    (h : st.di.vty_sock_path.isSome = true) :
    (frr_opt o a st).2.di.vty_sock_path.isSome = true := by
  unfold frr_opt
  split_ifs <;> (try simp [h]) <;> (try split) <;> simp [h]

/-! ### Code-specific dispatch computations -/

theorem frr_opt_A_progress (a : String) (st : ParseState)
    (hflag : st.di.flags.noTcpVty = false) :
    (frr_opt 65 a st).2.vty_addr_set = true ∧
      (st.vty_addr_set = true → st.errors + 1 ≤ (frr_opt 65 a st).2.errors) := by
  unfold frr_opt
  cases hs : st.vty_addr_set <;> simp [hflag, hs]

theorem frr_opt_P_progress (a : String) (st : ParseState)
    (hflag : st.di.flags.noTcpVty = false) :
    (frr_opt 80 a st).2.vty_port_set = true ∧
      (st.vty_port_set = true → st.errors + 1 ≤ (frr_opt 80 a st).2.errors) := by
  unfold frr_opt
  cases hs : st.vty_port_set <;> simp [hflag, hs] <;> split <;> simp

theorem frr_opt_S_progress (a : String) (st : ParseState) :
    (frr_opt 1000 a st).2.di.vty_sock_path.isSome = true ∧
      (st.di.vty_sock_path.isSome = true →
        st.errors + 1 ≤ (frr_opt 1000 a st).2.errors) := by
  unfold frr_opt
  cases hs : st.di.vty_sock_path.isSome <;> simp [OPTION_VTYSOCK, hs]

theorem frr_opt_A_fresh (a : String) (st : ParseState)
    (hflag : st.di.flags.noTcpVty = false) (hs : st.vty_addr_set = false) :
    frr_opt 65 a st =
      (FrrOptAction.handled,
        { st with vty_addr_set := true, di := { st.di with vty_addr := some a } }) := by
  unfold frr_opt
  simp [hflag, hs]

theorem frr_opt_P_fresh_valid (a : String) (st : ParseState)
    (hflag : st.di.flags.noTcpVty = false) (hs : st.vty_port_set = false)
    (hfull : (strtoul0 a).endpos = a.length) (hne : a.length ≠ 0) :
    frr_opt 80 a st =
      (FrrOptAction.handled,
        { st with vty_port_set := true,
                  di := { st.di with vty_port := (strtoul0 a).value } }) := by
  unfold frr_opt
  simp [hflag, hs, hfull, hne]

theorem frr_opt_S_fresh (a : String) (st : ParseState)
    (hs : st.di.vty_sock_path = none) :
    frr_opt 1000 a st =
      (FrrOptAction.handled,
        { st with di := { st.di with vty_sock_path := some a } }) := by
  unfold frr_opt
  simp [OPTION_VTYSOCK, hs]

/-! ### Scan-level lemmas -/

/-- Number of events in the list carrying a given option code. -/
def countCode (code : Int) (evs : List Event) : Nat :=
  (evs.filter (fun e => e.code = code)).length

theorem countCode_nil (code : Int) : countCode code [] = 0 := rfl

theorem countCode_cons (code : Int) (e : Event) (rest : List Event) :
    countCode code (e :: rest) =
      (if e.code = code then 1 else 0) + countCode code rest := by
  by_cases h : e.code = code <;> simp [countCode, h, List.filter_cons] <;> omega

theorem scanState_errors_le (evs : List Event) (st : ParseState) :
    st.errors ≤ (scanState evs st).errors := by
  induction evs generalizing st with
  | nil => simp [scanState]
  | cons e rest ih =>
      calc st.errors ≤ (frr_opt e.code e.arg st).2.errors := frr_opt_errors_le _ _ _
        _ ≤ (scanState rest (frr_opt e.code e.arg st).2).errors := ih _

theorem scanState_flags (evs : List Event) (st : ParseState) :
    (scanState evs st).di.flags = st.di.flags := by
  induction evs generalizing st with
  | nil => simp [scanState]
  | cons e rest ih => rw [scanState, ih, frr_opt_flags_eq]

/-- On an event list free of help/version codes, the full scan dispatches
every event and then exits with status 1 to stderr exactly when errors were
accumulated. -/
theorem runScan_no_hv (evs : List Event) (st : ParseState)
    (h : ∀ e ∈ evs, e.code ≠ 104 ∧ e.code ≠ 118) :
    runScan evs st =
      if (scanState evs st).errors ≠ 0 then ScanOutcome.exitp 1 OutStream.stderr
      else ScanOutcome.ok (scanState evs st) := by
  induction evs generalizing st with
  | nil => simp [runScan, scanState]
  | cons e rest ih =>
      have he := h e (List.mem_cons_self e rest)
      have hrest : ∀ e2 ∈ rest, e2.code ≠ 104 ∧ e2.code ≠ 118 :=
        fun e2 hm => h e2 (List.mem_cons_of_mem e hm)
      rw [runScan, scanState]
      cases hfo : frr_opt e.code e.arg st with
      | mk act st1 =>
          cases act with
          | exitp s t =>
              exact absurd (frr_opt_exitp_characterization hfo).2.2.1
                (by simp [he.1, he.2])
          | handled => exact ih st1 hrest
          | unhandled => exact ih st1 hrest

/-- Generic duplicate argument: any "set at most once" option whose repeat
dispatch bumps the error count forces a nonzero final error count.
`flagOf` reads the per-option "already set" state, `inv` is a per-state
invariant preserved by every dispatch (used for the feature-flag
hypotheses). -/
theorem scanState_dup (code : Int) (flagOf : ParseState → Bool)
    (inv : ParseState → Prop)
    (hinv : ∀ o a st, inv st → inv (frr_opt o a st).2)
    (hflagmono : ∀ o a st, flagOf st = true → flagOf (frr_opt o a st).2 = true)
    (hprog : ∀ a st, inv st →
      flagOf (frr_opt code a st).2 = true ∧
        (flagOf st = true → st.errors + 1 ≤ (frr_opt code a st).2.errors)) :
    ∀ evs st, inv st →
      (1 ≤ st.errors ∨ (flagOf st = true ∧ 1 ≤ countCode code evs) ∨
        2 ≤ countCode code evs) →
      1 ≤ (scanState evs st).errors := by
  intro evs
  induction evs with
  | nil =>
      intro st _ hd
      rcases hd with h1 | ⟨_, h2⟩ | h3
      · simpa [scanState] using h1
      · simp [countCode_nil] at h2
      · simp [countCode_nil] at h3
  | cons e rest ih =>
      intro st hi hd
      have hi1 : inv (frr_opt e.code e.arg st).2 := hinv _ _ _ hi
      rw [scanState]
      by_cases hc : e.code = code
      · rcases hd with h1 | ⟨hf, _⟩ | h3
        · exact ih _ hi1 (Or.inl (le_trans h1 (frr_opt_errors_le _ _ _)))
        · refine ih _ hi1 (Or.inl ?_)
          have := (hprog e.arg st hi).2 hf
          rw [hc] at *
          omega
        · have hcount : 1 ≤ countCode code rest := by
            rw [countCode_cons, if_pos hc] at h3; omega
          have hset : flagOf (frr_opt e.code e.arg st).2 = true := by
            rw [hc]; exact (hprog e.arg st hi).1
          exact ih _ hi1 (Or.inr (Or.inl ⟨hset, hcount⟩))
      · have hcount : countCode code (e :: rest) = countCode code rest := by
          rw [countCode_cons, if_neg hc]; omega
        rcases hd with h1 | ⟨hf, h2⟩ | h3
        · exact ih _ hi1 (Or.inl (le_trans h1 (frr_opt_errors_le _ _ _)))
        · exact ih _ hi1 (Or.inr (Or.inl
            ⟨hflagmono _ _ _ hf, by rwa [hcount] at h2⟩))
        · exact ih _ hi1 (Or.inr (Or.inr (by rwa [hcount] at h3)))

/-- A scan consisting only of vty_addr / vty_port / vty_socket events, each
at most once (relative to the incoming state) and with every port value
fully numeric, accumulates no error. -/
theorem scanState_clean : ∀ (evs : List Event) (st : ParseState),
    st.di.flags.noTcpVty = false →
    (∀ e ∈ evs, e.code = 65 ∨ e.code = 80 ∨ e.code = 1000) →
    (∀ e ∈ evs, e.code = 80 →
      (strtoul0 e.arg).endpos = e.arg.length ∧ e.arg.length ≠ 0) →
    st.errors = 0 →
    countCode 65 evs + (if st.vty_addr_set then 1 else 0) ≤ 1 →
    countCode 80 evs + (if st.vty_port_set then 1 else 0) ≤ 1 →
    countCode 1000 evs + (if st.di.vty_sock_path.isSome then 1 else 0) ≤ 1 →
    (scanState evs st).errors = 0 := by
  intro evs
  induction evs with
  | nil => intro st _ _ _ he _ _ _; simpa [scanState] using he
  | cons e rest ih =>
      intro st htcp hcodes hports he hA hP hS
      have hcodes1 : ∀ e2 ∈ rest, e2.code = 65 ∨ e2.code = 80 ∨ e2.code = 1000 :=
        fun e2 hm => hcodes e2 (List.mem_cons_of_mem e hm)
      have hports1 : ∀ e2 ∈ rest, e2.code = 80 →
          (strtoul0 e2.arg).endpos = e2.arg.length ∧ e2.arg.length ≠ 0 :=
        fun e2 hm => hports e2 (List.mem_cons_of_mem e hm)
      rw [scanState]
      rcases hcodes e (List.mem_cons_self e rest) with hc | hc | hc
      · -- vty_addr event
        have hset : st.vty_addr_set = false := by
          rcases h : st.vty_addr_set
          · rfl
          · rw [countCode_cons, if_pos hc, h] at hA; simp at hA
        rw [hc, frr_opt_A_fresh e.arg st htcp hset]
        refine ih _ htcp hcodes1 hports1 he ?_ ?_ ?_
        · rw [countCode_cons, if_pos hc, hset] at hA
          simp at hA ⊢
          omega
        · rw [countCode_cons, if_neg (by rw [hc]; decide)] at hP; simpa using hP
        · rw [countCode_cons, if_neg (by rw [hc]; decide)] at hS; simpa using hS
      · -- vty_port event
        have hset : st.vty_port_set = false := by
          rcases h : st.vty_port_set
          · rfl
          · rw [countCode_cons, if_pos hc, h] at hP; simp at hP
        have hv := hports e (List.mem_cons_self e rest) hc
        rw [hc, frr_opt_P_fresh_valid e.arg st htcp hset hv.1 hv.2]
        refine ih _ htcp hcodes1 hports1 he ?_ ?_ ?_
        · rw [countCode_cons, if_neg (by rw [hc]; decide)] at hA; simpa using hA
        · rw [countCode_cons, if_pos hc, hset] at hP
          simp at hP ⊢
          omega
        · rw [countCode_cons, if_neg (by rw [hc]; decide)] at hS; simpa using hS
      · -- vty_socket event
        have hset : st.di.vty_sock_path = none := by
          rcases h : st.di.vty_sock_path with _ | p
          · rfl
          · rw [countCode_cons, if_pos hc, h] at hS; simp at hS
        rw [hc, frr_opt_S_fresh e.arg st hset]
        refine ih _ htcp hcodes1 hports1 he ?_ ?_ ?_
        · rw [countCode_cons, if_neg (by rw [hc]; decide)] at hA; simpa using hA
        · rw [countCode_cons, if_neg (by rw [hc]; decide)] at hP; simpa using hP
        · rw [countCode_cons, if_pos hc, hset] at hS
          simp at hS ⊢
          omega

theorem frr_opt_P_fresh_invalid (a : String) (st : ParseState)
    (hflag : st.di.flags.noTcpVty = false) (hs : st.vty_port_set = false)
    (hbad : (strtoul0 a).endpos ≠ a.length ∨ a.length = 0) :
    frr_opt 80 a st =
      (FrrOptAction.handled,
        { st with vty_port_set := true,
                  errors := st.errors + 1,
                  di := { st.di with vty_port := (strtoul0 a).value },
                  diags := st.diags ++
                    ["invalid port number \"" ++ a ++ "\" for -P option"] }) := by
  unfold frr_opt
  rcases hbad with hbad | hbad <;> simp [hflag, hs, hbad]

theorem frr_opt_P_dup (a : String) (st : ParseState)
    (hflag : st.di.flags.noTcpVty = false) (hs : st.vty_port_set = true) :
    frr_opt 80 a st =
      (FrrOptAction.handled,
        { st with errors := st.errors + 1,
                  diags := st.diags ++ ["-P option specified more than once!"] }) := by
  unfold frr_opt
  simp [hflag, hs]

/-- A `frr_getopt` call reports the accumulated failure (help text to
stderr, exit status 1) exactly when the scan consumed every remaining
option without exiting or handing one back, and the resulting error count
is nonzero. -/
theorem frr_getopt_fail_iff : ∀ (evs : List Event) (st : ParseState),
    frr_getopt evs st = GetoptRet.exitp 1 OutStream.stderr ↔
      ∃ st2, processAll evs st = some st2 ∧ st2.errors ≠ 0 := by
  intro evs
  induction evs with
  | nil =>
      intro st
      by_cases h : st.errors ≠ 0 <;> simp [frr_getopt, processAll, h]
  | cons e rest ih =>
      intro st
      cases hfo : frr_opt e.code e.arg st with
      | mk act st1 =>
          cases act with
          | exitp s t =>
              have hch := frr_opt_exitp_characterization hfo
              simp [frr_getopt, processAll, hfo, hch.1]
          | handled => simpa [frr_getopt, processAll, hfo] using ih st1
          | unhandled => simp [frr_getopt, processAll, hfo]

/-! ### Claim theorems -/

/-- An over-capacity fragment: a 258-character short-option string, longer
than the whole 256-byte `comb_optstr` buffer. -/
def bigOptstr : String := String.mk (List.replicate 258 'a')

set_option maxRecDepth 4000 in
/-- Claim C1: the claim says a registration that would exceed the fixed
capacities (256-byte short spec, 64 long-option slots, 4096-byte help
string) fails fatally and loudly.  The code has no such path: `opt_extend`
appends unconditionally (`strcat`/`memcpy` with no bound check), so an
over-capacity `frr_opt_add` completes "successfully" with the combined
short spec already past the buffer size — in C this is an out-of-bounds
write, not a fatal diagnostic.  This theorem evaluates the code at such a
failing input: the append is always the plain concatenation, and at
`bigOptstr` the combined length 258 exceeds `COMB_OPTSTR_SIZE = 256`. -/
theorem C1_opt_extend_unchecked :
    (∀ (os : Optspec) (c : CombState),
      opt_extend os c =
        { comb_optstr := c.comb_optstr ++ os.optstr,
          comb_lo := c.comb_lo ++ os.longopts,
          comb_helpstr := c.comb_helpstr ++ os.helpstr })
    ∧ (frr_opt_add bigOptstr [] "" emptyComb).comb_optstr.length = 258
    ∧ COMB_OPTSTR_SIZE = 256 ∧ 256 < 258 := by
  exact ⟨fun os c => rfl, by decide, rfl, by decide⟩

/-- Claim C2: the `-P`/`--vty_port` handler accepts a value string (leaves
the error count unchanged) if and only if the C `strtoul` parse consumes
the string in its entirety and the string is nonempty; any rejected value
increments the error count by one.  Concretely, "0" and "65535" are
accepted while "abc", "123abc" and "" are rejected. -/
theorem C2_vty_port_validation (s : String) (st : ParseState)
    (htcp : st.di.flags.noTcpVty = false) (hset : st.vty_port_set = false) :
    ((frr_opt 80 s st).2.errors = st.errors ↔
      (s ≠ "" ∧ (strtoul0 s).endpos = s.length))
    ∧ (¬ (s ≠ "" ∧ (strtoul0 s).endpos = s.length) →
        (frr_opt 80 s st).2.errors = st.errors + 1)
    ∧ vtyPortAccepted "0" = true
    ∧ vtyPortAccepted "65535" = true
    ∧ vtyPortAccepted "abc" = false
    ∧ vtyPortAccepted "123abc" = false
    ∧ vtyPortAccepted "" = false := by
  have hbridge : s = "" ↔ s.length = 0 := (string_length_eq_zero_iff s).symm
  by_cases hc : (strtoul0 s).endpos ≠ s.length ∨ s.length = 0
  · rw [frr_opt_P_fresh_invalid s st htcp hset hc]
    refine ⟨?_, fun _ => rfl, by decide, by decide, by decide, by decide, by decide⟩
    simp only []
    constructor
    · intro h; omega
    · rintro ⟨hne, hfull⟩
      rcases hc with hc | hc
      · exact absurd hfull hc
      · exact absurd (hbridge.mpr hc) hne
  · push_neg at hc
    rw [frr_opt_P_fresh_valid s st htcp hset hc.1 hc.2]
    refine ⟨?_, ?_, by decide, by decide, by decide, by decide, by decide⟩
    · simp only [true_iff]
      exact ⟨fun h => hc.2 (hbridge.mp h), hc.1⟩
    · intro h
      exact absurd ⟨fun h2 => hc.2 (hbridge.mp h2), hc.1⟩ h

/-- Witness for C2 at the concrete accepted value "7" on a fresh state. -/
theorem C2_witness :
    (frr_opt 80 "7" (initParse di0)).2.errors = (initParse di0).errors :=
  (C2_vty_port_validation "7" (initParse di0) rfl rfl).1.mpr (by decide)

/-- Claim C3: on a scan free of help/version requests, with the remote
listener enabled, specifying `--vty_addr` (code 65), `--vty_port` (code 80)
or `--vty_socket` (code 1000) more than once forces a nonzero error count
and the help-with-failure exit (status 1, stderr) at end of scan; while a
fresh invocation whose events use each of these options at most once — in
particular exactly once — with fully numeric port values accumulates no
error and the scan completes normally. -/
theorem C3_single_use_options (evs : List Event) (st : ParseState)
    (hnohv : ∀ e ∈ evs, e.code ≠ 104 ∧ e.code ≠ 118)
    (htcp : st.di.flags.noTcpVty = false) :
    ((2 ≤ countCode 65 evs ∨ 2 ≤ countCode 80 evs ∨ 2 ≤ countCode 1000 evs) →
      runScan evs st = ScanOutcome.exitp 1 OutStream.stderr)
    ∧ (st.errors = 0 → st.vty_addr_set = false → st.vty_port_set = false →
       st.di.vty_sock_path = none →
       (∀ e ∈ evs, e.code = 65 ∨ e.code = 80 ∨ e.code = 1000) →
       (∀ e ∈ evs, e.code = 80 →
         (strtoul0 e.arg).endpos = e.arg.length ∧ e.arg.length ≠ 0) →
       countCode 65 evs ≤ 1 → countCode 80 evs ≤ 1 → countCode 1000 evs ≤ 1 →
       runScan evs st = ScanOutcome.ok (scanState evs st) ∧
         (scanState evs st).errors = 0) := by
  constructor
  · intro hdup
    have herr : 1 ≤ (scanState evs st).errors := by
      rcases hdup with h | h | h
      · exact scanState_dup 65 (fun st2 => st2.vty_addr_set)
          (fun st2 => st2.di.flags.noTcpVty = false)
          (fun o a st2 hi => by
            show (frr_opt o a st2).2.di.flags.noTcpVty = false
            rw [frr_opt_flags_eq]; exact hi)
          frr_opt_addr_mono
          (fun a st2 hi => frr_opt_A_progress a st2 hi)
          evs st htcp (Or.inr (Or.inr h))
      · exact scanState_dup 80 (fun st2 => st2.vty_port_set)
          (fun st2 => st2.di.flags.noTcpVty = false)
          (fun o a st2 hi => by
            show (frr_opt o a st2).2.di.flags.noTcpVty = false
            rw [frr_opt_flags_eq]; exact hi)
          frr_opt_port_mono
          (fun a st2 hi => frr_opt_P_progress a st2 hi)
          evs st htcp (Or.inr (Or.inr h))
      · exact scanState_dup 1000 (fun st2 => st2.di.vty_sock_path.isSome)
          (fun _ => True)
          (fun _ _ _ _ => trivial)
          frr_opt_sock_mono
          (fun a st2 _ => frr_opt_S_progress a st2)
          evs st trivial (Or.inr (Or.inr h))
    rw [runScan_no_hv evs st hnohv, if_pos (by omega)]
  · intro he ha hp hs hcodes hports hA hP hS
    have hclean : (scanState evs st).errors = 0 := by
      refine scanState_clean evs st htcp hcodes hports he ?_ ?_ ?_
      · rw [ha]; simpa using hA
      · rw [hp]; simpa using hP
      · rw [hs]; simpa using hS
    refine ⟨?_, hclean⟩
    rw [runScan_no_hv evs st hnohv, if_neg (by omega)]

/-- Events for the C3 witness: `-A` given twice. -/
def evsDupA : List Event :=
  [{ code := 65, arg := "1.2.3.4" }, { code := 65, arg := "5.6.7.8" }]

/-- Events for the C3 witness: each single-use option given exactly once. -/
def evsOnce : List Event :=
  [{ code := 65, arg := "::1" }, { code := 80, arg := "2601" },
   { code := 1000, arg := "/tmp/ov" }]

/-- Witness for C3: a duplicated `-A` exits with status 1 on stderr, and
one use of each of `-A`, `-P`, `--vty_socket` with a valid port scans
cleanly. -/
theorem C3_witness :
    runScan evsDupA (initParse di0) = ScanOutcome.exitp 1 OutStream.stderr
    ∧ runScan evsOnce (initParse di0) =
        ScanOutcome.ok (scanState evsOnce (initParse di0))
    ∧ (scanState evsOnce (initParse di0)).errors = 0 := by
  refine ⟨?_, ?_⟩
  · exact (C3_single_use_options evsDupA (initParse di0)
      (by intro e he; simp [evsDupA] at he
          rcases he with rfl | rfl <;> exact ⟨by decide, by decide⟩)
      rfl).1 (Or.inl (by decide))
  · have h := (C3_single_use_options evsOnce (initParse di0)
      (by intro e he; simp [evsOnce] at he
          rcases he with rfl | rfl | rfl <;> exact ⟨by decide, by decide⟩)
      rfl).2 rfl rfl rfl rfl
      (by intro e he; simp [evsOnce] at he
          rcases he with rfl | rfl | rfl <;> simp)
      (by intro e he; simp [evsOnce] at he
          rcases he with rfl | rfl | rfl <;> intro h2 <;> first | (exact absurd h2 (by decide)) | exact ⟨by decide, by decide⟩)
      (by decide) (by decide) (by decide)
    exact ⟨h.1, h.2⟩

/-- Counterexample for C4: an option unrecognized by the dispatcher (code
63, getopt's '?') is not accumulated in the error count.  `frr_getopt`
hands it back to the caller with the state untouched (errors still 0), and
even a scan driven to completion ends without the help-with-failure exit —
contrary to the claim that unrecognized options are counted and surfaced
in the end-of-scan failure exit. -/
theorem C4_counterexample :
    frr_getopt [{ code := 63, arg := "z" }] (initParse di0) =
        GetoptRet.ret 63 (initParse di0) []
    ∧ (initParse di0).errors = 0
    ∧ runScan [{ code := 63, arg := "z" }] (initParse di0) =
        ScanOutcome.ok (initParse di0) := by
  exact ⟨by decide, rfl, by decide⟩

/-- Claim C4 (amended): duplicate single-valued options and malformed port
values are only accumulated in the error count — the only mid-scan exits of
the dispatcher are the help/version exits, with status 0 to stdout; an
option the dispatcher does not recognize is returned to the caller
unhandled, with the state (and hence the error count) untouched; and the
single help-with-failure exit (status 1, stderr) happens exactly when the
scanning primitive's events are exhausted with every option handled and the
accumulated error count nonzero. -/
theorem C4_error_accumulation :
    (∀ (o : Int) (a : String) (st : ParseState) (s : Nat) (t : OutStream)
        (st1 : ParseState),
      frr_opt o a st = (FrrOptAction.exitp s t, st1) →
        s = 0 ∧ t = OutStream.stdout ∧ (o = 104 ∨ o = 118))
    ∧ (∀ (evs : List Event) (st : ParseState),
        frr_getopt evs st = GetoptRet.exitp 1 OutStream.stderr ↔
          ∃ st2, processAll evs st = some st2 ∧ st2.errors ≠ 0)
    ∧ (∀ (o : Int) (a : String) (st : ParseState),
        o ≠ 104 → o ≠ 118 → o ≠ 65 → o ≠ 80 → o ≠ 1000 → o ≠ 117 → o ≠ 103 →
        frr_opt o a st = (FrrOptAction.unhandled, st))
    ∧ (∀ (e : Event) (rest : List Event) (st st1 : ParseState),
        frr_opt e.code e.arg st = (FrrOptAction.unhandled, st1) →
        frr_getopt (e :: rest) st = GetoptRet.ret e.code st1 rest) := by
  refine ⟨?_, frr_getopt_fail_iff, ?_, ?_⟩
  · intro o a st s t st1 h
    have hch := frr_opt_exitp_characterization h
    exact ⟨hch.1, hch.2.1, hch.2.2.1⟩
  · intro o a st h104 h118 h65 h80 h1000 h117 h103
    unfold frr_opt
    simp [h104, h118, h65, h80, h1000, h117, h103, OPTION_VTYSOCK]
  · intro e rest st st1 h
    rw [frr_getopt, h]

/-- Witness for C4: a duplicated `-A` drives `frr_getopt` into the
end-of-scan failure exit, derived through the amended characterization. -/
theorem C4_witness :
    frr_getopt [{ code := 65, arg := "a" }, { code := 65, arg := "b" }]
        (initParse di0) = GetoptRet.exitp 1 OutStream.stderr :=
  (C4_error_accumulation.2.1 _ (initParse di0)).mpr
    ⟨{ di := { di0 with vty_addr := some "a" }, errors := 1,
       vty_port_set := false, vty_addr_set := true,
       diags := ["-A option specified more than once!"] },
     by decide, by decide⟩

/-- A combined table that already holds one caller-registered fragment,
used to exhibit that `frr_preinit` does not reset the table. -/
def cPre : CombState :=
  { comb_optstr := "x:"
    comb_lo := [{ name := "xopt", has_arg := 1, val := 120 }]
    comb_helpstr := "  -x  Extra option\n" }

/-- Counterexample for C5: the claim says `frr_preinit` resets the combined
option table and then appends its fragments, which would make the result
independent of the table's prior contents — for a descriptor with both
features enabled, exactly `"hvu:g:A:P:"`.  Starting from a table already
holding a fragment, the result instead retains it: `frr_preinit` only
appends and performs no reset. -/
theorem C5_counterexample :
    (frr_preinit di0 "/usr/bin/testd" cPre).2.comb_optstr ≠ "hvu:g:A:P:"
    ∧ (frr_preinit di0 "/usr/bin/testd" cPre).2 ≠
        (frr_preinit di0 "/usr/bin/testd" emptyComb).2
    ∧ (frr_preinit di0 "/usr/bin/testd" cPre).2.comb_optstr = "x:hvu:g:A:P:" := by
  exact ⟨by decide, by decide, by decide⟩

/-- Claim C5 (amended): `frr_preinit` appends to the current combined table
(it performs no reset; the table is empty at program start only because the
global buffers are zero-initialized) the mandatory fragment, plus the
privilege-separation fragment exactly when `FRR_NO_PRIVSEP` is clear, plus
the remote-listener fragment exactly when `FRR_NO_TCPVTY` is clear, and
derives `progname` from the final segment of `argv[0]`. -/
theorem C5_preinit_appends (daemon : FrrDaemonInfo) (argv0 : String)
    (c : CombState) :
    (frr_preinit daemon argv0 c).2.comb_optstr =
      ((c.comb_optstr ++ os_always.optstr)
        ++ (if daemon.flags.noPrivsep = false then os_user.optstr else ""))
        ++ (if daemon.flags.noTcpVty = false then os_vty.optstr else "")
    ∧ (frr_preinit daemon argv0 c).2.comb_lo =
      ((c.comb_lo ++ os_always.longopts)
        ++ (if daemon.flags.noPrivsep = false then os_user.longopts else []))
        ++ (if daemon.flags.noTcpVty = false then os_vty.longopts else [])
    ∧ (frr_preinit daemon argv0 c).2.comb_helpstr =
      ((c.comb_helpstr ++ os_always.helpstr)
        ++ (if daemon.flags.noPrivsep = false then os_user.helpstr else ""))
        ++ (if daemon.flags.noTcpVty = false then os_vty.helpstr else "")
    ∧ (frr_preinit daemon argv0 c).1 =
        { daemon with progname := afterLastSlash argv0 } := by
  cases hp : daemon.flags.noPrivsep <;> cases ht : daemon.flags.noTcpVty <;>
    simp [frr_preinit, opt_extend, hp, ht, String.append_empty]

/-- Claim C6: `frr_vty_serv(path)` with no `--vty_socket` override binds
the local control listener at exactly the base path; with an override
directory set (and the joined path within `MAXPATHLEN`), at exactly the
override directory joined with the final segment of the base path — and in
both cases passes the configured vty address and port through unchanged. -/
theorem C6_vty_serv_paths (di : FrrDaemonInfo) (path : String) :
    (di.vty_sock_path = none →
      frr_vty_serv di path = (di.vty_addr, di.vty_port, path))
    ∧ (∀ sp, di.vty_sock_path = some sp →
        (sp ++ "/" ++ afterLastSlash path).length ≤ MAXPATHLEN - 1 →
        frr_vty_serv di path =
          (di.vty_addr, di.vty_port, sp ++ "/" ++ afterLastSlash path)) := by
  constructor
  · intro h
    simp [frr_vty_serv, h]
  · intro sp hsp hlen
    have htake : ((sp ++ "/" ++ afterLastSlash path).data.take (MAXPATHLEN - 1))
        = (sp ++ "/" ++ afterLastSlash path).data :=
      List.take_of_length_le hlen
    simp only [frr_vty_serv, hsp, snprintf_path]
    rw [htake]

/-- Witness for C6: base `/run/foo.vty` binds unchanged without an
override, and with override `/tmp/ov` binds `/tmp/ov/foo.vty`. -/
theorem C6_witness :
    frr_vty_serv di0 "/run/foo.vty" = (none, 0, "/run/foo.vty")
    ∧ frr_vty_serv { di0 with vty_sock_path := some "/tmp/ov" } "/run/foo.vty" =
        ({ di0 with vty_sock_path := some "/tmp/ov" }.vty_addr,
         { di0 with vty_sock_path := some "/tmp/ov" }.vty_port,
         "/tmp/ov" ++ "/" ++ afterLastSlash "/run/foo.vty")
    ∧ "/tmp/ov" ++ "/" ++ afterLastSlash "/run/foo.vty" = "/tmp/ov/foo.vty" :=
  ⟨(C6_vty_serv_paths di0 "/run/foo.vty").1 rfl,
   (C6_vty_serv_paths { di0 with vty_sock_path := some "/tmp/ov" }
      "/run/foo.vty").2 "/tmp/ov" rfl (by decide),
   by decide⟩

/-- Claim C7: whenever the scan encounters `-h` (code 104) or `-v` (code
118), the process exits with status 0 and the output goes to stdout — no
other event can exit the scan first, because recoverable errors only
accumulate, so invalid options elsewhere on the command line do not change
this. -/
theorem C7_help_version_exit (evs : List Event) (st : ParseState)
    (h : ∃ e, e ∈ evs ∧ (e.code = 104 ∨ e.code = 118)) :
    runScan evs st = ScanOutcome.exitp 0 OutStream.stdout := by
  induction evs generalizing st with
  | nil =>
      rcases h with ⟨e, he, _⟩
      cases he
  | cons e2 rest ih =>
      by_cases hc : e2.code = 104 ∨ e2.code = 118
      · rw [runScan]
        rcases hc with hc | hc <;> rw [hc] <;> simp [frr_opt]
      · rcases h with ⟨e, he, hcode⟩
        rcases List.mem_cons.mp he with rfl | hm
        · exact absurd hcode hc
        · rw [runScan]
          cases hfo : frr_opt e2.code e2.arg st with
          | mk act st1 =>
              cases act with
              | exitp s t =>
                  exact absurd (frr_opt_exitp_characterization hfo).2.2.1 hc
              | handled => exact ih st1 ⟨e, hm, hcode⟩
              | unhandled => exact ih st1 ⟨e, hm, hcode⟩

/-- Witness for C7: `-h` after an invalid `-P` value still exits 0 on
stdout. -/
theorem C7_witness :
    runScan [{ code := 80, arg := "9x" }, { code := 104, arg := "" }]
        (initParse di0) = ScanOutcome.exitp 0 OutStream.stdout :=
  C7_help_version_exit _ (initParse di0)
    ⟨{ code := 104, arg := "" }, by simp, Or.inl rfl⟩

/-- Claim C8: when `FRR_NO_TCPVTY` is set, `frr_preinit` never merges the
remote-listener fragment into the combined table (the result is just the
mandatory fragment, plus the privilege fragment when enabled), and the
dispatcher returns the unhandled signal for the `-A` (65) and `-P` (80)
codes with the state untouched, for every supplied value — so getopt
reports them as unrecognized. -/
theorem C8_no_tcpvty (daemon : FrrDaemonInfo) (argv0 : String) (c : CombState)
    (a : String) (st : ParseState)
    (hd : daemon.flags.noTcpVty = true) (hst : st.di.flags.noTcpVty = true) :
    (frr_preinit daemon argv0 c).2 =
      (if daemon.flags.noPrivsep = false
        then opt_extend os_user (opt_extend os_always c)
        else opt_extend os_always c)
    ∧ frr_opt 65 a st = (FrrOptAction.unhandled, st)
    ∧ frr_opt 80 a st = (FrrOptAction.unhandled, st) := by
  refine ⟨?_, ?_, ?_⟩
  · cases hp : daemon.flags.noPrivsep <;> simp [frr_preinit, hd, hp]
  · unfold frr_opt
    simp [hst]
  · unfold frr_opt
    simp [hst]

/-- Witness for C8 on a descriptor with both feature flags set. -/
theorem C8_witness :
    (frr_preinit diNone "x" emptyComb).2 =
      (if diNone.flags.noPrivsep = false
        then opt_extend os_user (opt_extend os_always emptyComb)
        else opt_extend os_always emptyComb)
    ∧ frr_opt 65 "1.1.1.1" (initParse diNone) =
        (FrrOptAction.unhandled, initParse diNone)
    ∧ frr_opt 80 "99" (initParse diNone) =
        (FrrOptAction.unhandled, initParse diNone) :=
  C8_no_tcpvty diNone "x" emptyComb "1.1.1.1" (initParse diNone) rfl rfl

/-- Claim C9: with privilege separation enabled, every `-u` (117) / `-g`
(103) occurrence stores its value verbatim into the descriptor's privilege
configuration; a repeated occurrence silently overwrites the previous value
and neither occurrence ever touches the error count or prints a diagnostic
— asymmetric with the duplicate-checked listener and socket-path options. -/
theorem C9_user_group_overwrite (st : ParseState) (a b : String)
    (hp : st.di.flags.noPrivsep = false) :
    frr_opt 117 a st =
      (FrrOptAction.handled, { st with di := { st.di with privsUser := some a } })
    ∧ frr_opt 103 a st =
      (FrrOptAction.handled, { st with di := { st.di with privsGroup := some a } })
    ∧ (frr_opt 117 b (frr_opt 117 a st).2).2.di.privsUser = some b
    ∧ (frr_opt 103 b (frr_opt 103 a st).2).2.di.privsGroup = some b
    ∧ (frr_opt 117 b (frr_opt 117 a st).2).2.errors = st.errors
    ∧ (frr_opt 103 b (frr_opt 103 a st).2).2.errors = st.errors
    ∧ (frr_opt 117 b (frr_opt 117 a st).2).2.diags = st.diags
    ∧ (frr_opt 103 b (frr_opt 103 a st).2).2.diags = st.diags := by
  unfold frr_opt
  simp [hp, OPTION_VTYSOCK]

/-- Witness for C9 at concrete user and group values on a fresh state. -/
theorem C9_witness :
    frr_opt 117 "alice" (initParse di0) =
      (FrrOptAction.handled,
        { initParse di0 with
            di := { (initParse di0).di with privsUser := some "alice" } })
    ∧ frr_opt 103 "alice" (initParse di0) =
      (FrrOptAction.handled,
        { initParse di0 with
            di := { (initParse di0).di with privsGroup := some "alice" } })
    ∧ (frr_opt 117 "bob" (frr_opt 117 "alice" (initParse di0)).2).2.di.privsUser
        = some "bob"
    ∧ (frr_opt 103 "bob" (frr_opt 103 "alice" (initParse di0)).2).2.di.privsGroup
        = some "bob"
    ∧ (frr_opt 117 "bob" (frr_opt 117 "alice" (initParse di0)).2).2.errors
        = (initParse di0).errors
    ∧ (frr_opt 103 "bob" (frr_opt 103 "alice" (initParse di0)).2).2.errors
        = (initParse di0).errors
    ∧ (frr_opt 117 "bob" (frr_opt 117 "alice" (initParse di0)).2).2.diags
        = (initParse di0).diags
    ∧ (frr_opt 103 "bob" (frr_opt 103 "alice" (initParse di0)).2).2.diags
        = (initParse di0).diags :=
  C9_user_group_overwrite (initParse di0) "alice" "bob" rfl

/-- Claim C10: when `-P` is given an invalid value on a fresh state, the
handler still assigns the partially-parsed `strtoul` result to
`di->vty_port` and marks the port as set before recording the error (the
error count goes up by one and the invalid-port diagnostic is printed), and
a subsequent `-P` — whatever its value — takes the duplicate branch: one
more error, the duplicate diagnostic, and no reassignment of the port. -/
theorem C10_invalid_port_mutates (st : ParseState) (s s2 : String)
    (htcp : st.di.flags.noTcpVty = false) (hset : st.vty_port_set = false)
    (hbad : (strtoul0 s).endpos ≠ s.length ∨ s.length = 0) :
    (frr_opt 80 s st).2.vty_port_set = true
    ∧ (frr_opt 80 s st).2.di.vty_port = (strtoul0 s).value
    ∧ (frr_opt 80 s st).2.errors = st.errors + 1
    ∧ (frr_opt 80 s st).2.diags =
        st.diags ++ ["invalid port number \"" ++ s ++ "\" for -P option"]
    ∧ frr_opt 80 s2 (frr_opt 80 s st).2 =
        (FrrOptAction.handled,
          { (frr_opt 80 s st).2 with
              errors := (frr_opt 80 s st).2.errors + 1,
              diags := (frr_opt 80 s st).2.diags ++
                ["-P option specified more than once!"] }) := by
  rw [frr_opt_P_fresh_invalid s st htcp hset hbad]
  refine ⟨rfl, rfl, rfl, rfl, ?_⟩
  exact frr_opt_P_dup s2 _ htcp rfl

/-- Witness for C10 at the invalid value "123abc" (strtoul leaves 123)
followed by a valid "80" that is nevertheless reported as a duplicate. -/
theorem C10_witness :
    ((frr_opt 80 "123abc" (initParse di0)).2.vty_port_set = true
    ∧ (frr_opt 80 "123abc" (initParse di0)).2.di.vty_port =
        (strtoul0 "123abc").value
    ∧ (frr_opt 80 "123abc" (initParse di0)).2.errors = (initParse di0).errors + 1
    ∧ (frr_opt 80 "123abc" (initParse di0)).2.diags =
        (initParse di0).diags ++
          ["invalid port number \"" ++ "123abc" ++ "\" for -P option"]
    ∧ frr_opt 80 "80" (frr_opt 80 "123abc" (initParse di0)).2 =
        (FrrOptAction.handled,
          { (frr_opt 80 "123abc" (initParse di0)).2 with
              errors := (frr_opt 80 "123abc" (initParse di0)).2.errors + 1,
              diags := (frr_opt 80 "123abc" (initParse di0)).2.diags ++
                ["-P option specified more than once!"] }))
    ∧ (strtoul0 "123abc").value = 123 :=
  ⟨C10_invalid_port_mutates (initParse di0) "123abc" "80" rfl rfl (by decide),
   by decide⟩
